import Mathlib

/-
  Verification of the command-safety gate and bounded execution pipeline:
  a shallow embedding of src/core/command_validator.py,
  src/core/command_executor.py and src/core/command_processor.py.

  Python strings are modelled as Lean String values over their character
  lists; the embedding covers the ASCII range of the Python text
  predicates (str.strip / str.split / str.lower, the regex character
  classes a-zA-Z0-9, \s, \w), which is the range the validator tables and
  all error messages use.  OS interactions (process spawn, the path
  probe, the explanation collaborator) are modelled as explicit outcome
  oracles passed to the functions that consume them, so each code path of
  the source is a branch of a total Lean function.
-/

namespace TerminalTool

/-! ## Python string primitives -/

/-- Characters treated as whitespace by str.strip and str.split
    (ASCII range of the Python definition). -/
def pyIsSpace (c : Char) : Bool :=
  c = ' ' || c = '\t' || c = '\n' || c = '\r' || c = '\x0b' || c = '\x0c'

/-- Both-ends whitespace trim on a character list (str.strip). -/
def stripL (l : List Char) : List Char :=
  ((l.dropWhile pyIsSpace).reverse.dropWhile pyIsSpace).reverse

/-- str.strip with no arguments. -/
def pyStrip (s : String) : String := String.mk (stripL s.data)

/-- Worker for str.split with no arguments: accumulates the current word
    (reversed) and splits on runs of whitespace, producing no empty words. -/
def splitWsAux : List Char → List Char → List String
  | [], acc => if acc = [] then [] else [String.mk acc.reverse]
  | c :: r, acc =>
    if pyIsSpace c then
      if acc = [] then splitWsAux r []
      else String.mk acc.reverse :: splitWsAux r []
    else splitWsAux r (c :: acc)

/-- str.split with no arguments. -/
def pySplitWs (s : String) : List String := splitWsAux s.data []

/-- str.lower over the ASCII range. -/
def pyLower (s : String) : String := String.mk (s.data.map Char.toLower)

/-- Substring occurrence test, modelling the Python `in` operator on
    strings: pyInStr hay sub is true when sub occurs inside hay. -/
def occursSub (w : List Char) : List Char → Bool
  | [] => w.isPrefixOf ([] : List Char)
  | c :: r => w.isPrefixOf (c :: r) || occursSub w r

/-- Python substring containment: sub in hay. -/
def pyInStr (hay sub : String) : Bool := occursSub sub.data hay.data

/-- The apostrophe character, used by the validator error messages. -/
def squoteChar : Char := Char.ofNat 39

/-- The double-quote character. -/
def dquoteChar : Char := Char.ofNat 34

/-- The backslash character, the shlex escape character. -/
def bslashChar : Char := Char.ofNat 92

/-! ## shlex.split (POSIX mode, whitespace_split, no comments)

    Faithful state machine for the CPython shlex.read_token loop as
    configured by shlex.split: posix=True, whitespace_split=True,
    commenters cleared, quotes are the single and double quote, the
    escape character is the backslash, and only the double quote admits
    escapes inside it. -/

/-- shlex.whitespace is the four characters space, tab, CR, LF. -/
def shIsWs (c : Char) : Bool :=
  c = ' ' || c = '\t' || c = '\r' || c = '\n'

/-- Scanner states: between tokens, inside a word, inside a single or
    double quote, and after an escape character seen in a word or inside
    a double quote. -/
inductive ShState where
  | ws | word | squote | dquote | escW | escD
deriving DecidableEq, Repr

/-- One-pass shlex scanner.  Arguments: remaining input, state, current
    token characters in reverse, and the per-token quoted flag.  Errors
    carry the message of the ValueError the CPython code raises. -/
def shlexAux : List Char → ShState → List Char → Bool → Except String (List String)
  | [], .ws, tok, q =>
    .ok (if tok = [] && !q then [] else [String.mk tok.reverse])
  | c :: r, .ws, tok, q =>
    if shIsWs c then
      if tok = [] && !q then shlexAux r .ws [] false
      else
        match shlexAux r .ws [] false with
        | .error e => .error e
        | .ok rest => .ok (String.mk tok.reverse :: rest)
    else if c = bslashChar then shlexAux r .escW tok q
    else if c = squoteChar then shlexAux r .squote tok q
    else if c = dquoteChar then shlexAux r .dquote tok q
    else shlexAux r .word (c :: tok) q
  | [], .word, tok, q =>
    .ok (if tok = [] && !q then [] else [String.mk tok.reverse])
  | c :: r, .word, tok, q =>
    if shIsWs c then
      if tok = [] && !q then shlexAux r .ws [] false
      else
        match shlexAux r .ws [] false with
        | .error e => .error e
        | .ok rest => .ok (String.mk tok.reverse :: rest)
    else if c = squoteChar then shlexAux r .squote tok q
    else if c = dquoteChar then shlexAux r .dquote tok q
    else if c = bslashChar then shlexAux r .escW tok q
    else shlexAux r .word (c :: tok) q
  | [], .squote, _, _ => .error "No closing quotation"
  | c :: r, .squote, tok, _ =>
    if c = squoteChar then shlexAux r .word tok true
    else shlexAux r .squote (c :: tok) true
  | [], .dquote, _, _ => .error "No closing quotation"
  | c :: r, .dquote, tok, _ =>
    if c = dquoteChar then shlexAux r .word tok true
    else if c = bslashChar then shlexAux r .escD tok true
    else shlexAux r .dquote (c :: tok) true
  | [], .escW, _, _ => .error "No escaped character"
  | c :: r, .escW, tok, q => shlexAux r .word (c :: tok) q
  | [], .escD, _, _ => .error "No escaped character"
  | c :: r, .escD, tok, q =>
    if c = dquoteChar || c = bslashChar then shlexAux r .dquote (c :: tok) q
    else shlexAux r .dquote (c :: bslashChar :: tok) q

/-- shlex.split(command): the error message is what str(ValueError)
    yields in the validator f-string. -/
def shlexSplit (s : String) : Except String (List String) :=
  shlexAux s.data .ws [] false

/-! ## Validator (command_validator.py) -/

/-- Result of command validation (dataclass ValidationResult).  The
    warnings field keeps the Python None / list distinction. -/
structure ValidationResult where
  valid : Bool
  error : String := ""
  warnings : Option (List String) := none
  sanitized_command : String := ""
deriving DecidableEq, Repr

/-- A Python call result: either a value or a raised exception with its
    class name and message. -/
inductive PyResult (α : Type) where
  | ok (val : α)
  | exn (name msg : String)
deriving DecidableEq, Repr

/-- The dangerous_commands set of CommandValidator. -/
def dangerous_commands : List String :=
  ["rm", "del", "format", "dd", "mkfs", "fdisk",
   "shutdown", "reboot", "halt", "poweroff",
   "sudo", "su", "chmod", "chown"]

/-- The special_commands set of CommandValidator. -/
def special_commands : List String :=
  ["sudo", "su", "ssh", "telnet", "ftp"]

/-- max_command_length. -/
def max_command_length : Nat := 1000

/-- Membership in the allowed_chars regex character class
    [a-zA-Z0-9\s\-_./\\:;=@#$%^&*()\[\]\x7b\x7d|<>"..~] (ASCII range). -/
def allowedChar (c : Char) : Bool :=
  c.isAlpha || c.isDigit || pyIsSpace c ||
    "-_./\\:;=@#$%^&*()[]\x7b\x7d|<>\"\x27\x60~".data.contains c

/-- allowed_chars.match(command): the anchored pattern with a one-or-more
    character class matches exactly the nonempty strings all of whose
    characters are in the class. -/
def pyAllowedMatch (s : String) : Bool :=
  !s.data.isEmpty && s.data.all allowedChar

/-- Word characters for the regex word boundary, ASCII range of \w. -/
def isWordChar (c : Char) : Bool := c.isAlpha || c.isDigit || c = '_'

/-- Left boundary check: position start or preceding character non-word. -/
def boundaryL : Option Char → Bool
  | none => true
  | some c => !isWordChar c

/-- Right boundary check: position end or following character non-word. -/
def boundaryR : List Char → Bool
  | [] => true
  | c :: _ => !isWordChar c

/-- Occurrence of the word w somewhere in the input with a word boundary
    on both sides; prev is the character just before the current
    position.  All alternation words of the source patterns begin and end
    with word characters, for which the regex \b reduces to exactly this
    check. -/
def wordOccursAux (w : List Char) (prev : Option Char) : List Char → Bool
  | [] => boundaryL prev && w.isPrefixOf ([] : List Char)
  | c :: r =>
    (boundaryL prev && w.isPrefixOf (c :: r) && boundaryR ((c :: r).drop w.length))
      || wordOccursAux w (some c) r

/-- re.search of a boundary-delimited word over a string. -/
def wordOccurs (w s : String) : Bool := wordOccursAux w.data none s.data

/-- The union of the alternation words of the four networking_patterns
    regexes of _is_networking_command, in source order (netstat appears
    twice in the first pattern, as in the source). -/
def networkingWords : List String :=
  ["ipconfig", "ifconfig", "ip", "traceroute", "tracert", "ping",
   "netstat", "nmap", "dig", "nslookup", "route", "ss", "netstat",
   "host", "whois", "telnet", "ssh", "ftp", "scp", "rsync",
   "arp", "arping", "iwconfig", "iwlist", "wpa_supplicant",
   "ethtool", "mii-tool", "ifup", "ifdown"]

/-- CommandValidator._is_networking_command: some pattern word occurs in
    the lowercased command with word boundaries. -/
def is_networking_command (command : String) : Bool :=
  networkingWords.any fun w => wordOccurs w (pyLower command)

/-- CommandValidator._get_warnings, in source order. -/
def get_warnings (command : String) : List String :=
  (if pyInStr command ">" || pyInStr command ">>" then
    ["Command contains output redirection"] else [])
  ++ (if pyInStr command "|" then ["Command contains pipe operator"] else [])
  ++ (if pyInStr command "&" then ["Command contains background execution"] else [])
  ++ (if pyInStr command ";" then ["Command contains command separator"] else [])

/-- The emptiness check: not command or not command.strip(). -/
def emptyFail (s : String) : Bool := s = "" || pyStrip s = ""

/-- The length check: len(command) over max_command_length. -/
def lengthFail (s : String) : Bool := decide (max_command_length < s.length)

/-- The error message of the dangerous-command rejection. -/
def dangerousMsg (base : String) : String :=
  "Dangerous command \x27" ++ base ++ "\x27 is not allowed"

/-- The error message of the special-command rejection. -/
def specialMsg (base : String) : String :=
  "Special command \x27" ++ base ++ "\x27 requires special handling"

/-- The error message of the length rejection. -/
def tooLongMsg : String :=
  "Command too long (max " ++ toString max_command_length ++ " characters)"

/-- CommandValidator.validate_command.  The one partial operation of the
    source, command.split()[0], is modelled by the match on pySplitWs:
    the empty-list branch is the IndexError the indexing would raise. -/
def validate_commandE (command : String) : PyResult ValidationResult :=
  if emptyFail command then
    .ok ⟨false, "Empty command", none, ""⟩
  else if lengthFail command then
    .ok ⟨false, tooLongMsg, none, ""⟩
  else
    match pySplitWs command with
    | [] => .exn "IndexError" "list index out of range"
    | w :: _ =>
      if dangerous_commands.contains (pyLower w) then
        .ok ⟨false, dangerousMsg (pyLower w), none, ""⟩
      else if special_commands.contains (pyLower w) then
        .ok ⟨false, specialMsg (pyLower w), none, ""⟩
      else if !pyAllowedMatch command then
        .ok ⟨false, "Command contains invalid characters", none, ""⟩
      else
        match shlexSplit command with
        | .error e => .ok ⟨false, "Invalid command syntax: " ++ e, none, ""⟩
        | .ok [] => .ok ⟨false, "Invalid command syntax", none, ""⟩
        | .ok (_ :: _) =>
          if !is_networking_command command then
            .ok ⟨false, "Command does not appear to be a networking command", none, ""⟩
          else
            .ok ⟨true, "", some (get_warnings command), pyStrip command⟩

/-- Total projection of validate_commandE; the exception branch is
    proved unreachable below. -/
def validate_command (command : String) : ValidationResult :=
  match validate_commandE command with
  | .ok r => r
  | .exn _ _ => ⟨false, "list index out of range", none, ""⟩

/-! ## Executor (command_executor.py) -/

/-- CommandStatus enum; the string of each member is its .value. -/
inductive CommandStatus where
  | success | error | not_found | timeout | permission_denied
deriving DecidableEq, Repr

/-- The .value string of a CommandStatus member. -/
def statusValue : CommandStatus → String
  | .success => "success"
  | .error => "error"
  | .not_found => "not_found"
  | .timeout => "timeout"
  | .permission_denied => "permission_denied"

/-- Result of command execution (dataclass CommandResult).  Durations
    are rationals standing for the nonnegative float seconds of the
    source. -/
structure CommandResult where
  command : String
  output : String
  error : String
  status : CommandStatus
  return_code : Int
  execution_time : ℚ
deriving DecidableEq, Repr

/-- What the OS does for one spawn attempt: either the process is
    created after spawnSeconds and communicate returns after runSeconds
    more with the given exit code and streams, or creation raises
    FileNotFoundError, PermissionError, or some other exception. -/
inductive SpawnOutcome where
  | ok (spawnSeconds runSeconds : ℚ) (exitCode : Int) (stdout stderr : String)
  | fileNotFound
  | permissionError
  | otherExn (msg : String)
deriving DecidableEq, Repr

/-- CommandExecutor._parse_command: shlex.split with a naive whitespace
    split as the ValueError fallback. -/
def parse_command (command : String) : List String :=
  match shlexSplit command with
  | .ok parts => parts
  | .error _ => pySplitWs command

/-- CommandExecutor._determine_status.  The stderr argument is accepted
    and ignored, as in the source. -/
def determine_status (return_code : Int) (stderr : String) : CommandStatus :=
  if return_code = 0 then .success
  else if return_code = 127 then .not_found
  else if return_code = 126 then .permission_denied
  else .error

/-- The timeout error message of the asyncio.TimeoutError branch. -/
def timeoutMsg (t : Int) : String :=
  "Command timed out after " ++ toString t ++ " seconds"

/-- CommandExecutor.execute.  The asyncio.wait_for in the source wraps
    only _create_subprocess, so the timer covers process creation alone:
    the TimeoutError branch fires exactly when spawning itself exceeds
    the bound, while the await of process.communicate() that follows is
    unbounded and the elapsed time of a normal completion is the full
    spawn plus run duration.  The FileNotFoundError message indexes
    command.split()[0]; the empty-split branch is the IndexError that
    indexing would raise inside the handler. -/
def executeE (timeout : Int) (command : String) (os : SpawnOutcome) :
    PyResult CommandResult :=
  match os with
  | .ok spawnS runS code out err =>
    if (timeout : ℚ) < spawnS then
      .ok ⟨command, "", timeoutMsg timeout, .timeout, -1, (timeout : ℚ)⟩
    else
      .ok ⟨command, out, err, determine_status code err, code, spawnS + runS⟩
  | .fileNotFound =>
    match pySplitWs command with
    | [] => .exn "IndexError" "list index out of range"
    | w :: _ => .ok ⟨command, "", "Command not found: " ++ w, .not_found, -1, 0⟩
  | .permissionError =>
    .ok ⟨command, "", "Permission denied: " ++ command, .permission_denied, -1, 0⟩
  | .otherExn msg =>
    .ok ⟨command, "", "Unexpected error: " ++ msg, .error, -1, 0⟩

/-- What the OS path-resolution probe of is_command_available does:
    subprocess.run of the which/where tool completes with a return code,
    or raises TimeoutExpired, FileNotFoundError, or some other
    exception. -/
inductive ProbeOutcome where
  | completed (returncode : Int)
  | timeoutExpired
  | fileNotFound
  | otherExn (name msg : String)
deriving DecidableEq, Repr

/-- CommandExecutor.is_command_available: the except clause catches
    exactly TimeoutExpired and FileNotFoundError; anything else
    propagates. -/
def is_command_available (probe : ProbeOutcome) : PyResult Bool :=
  match probe with
  | .completed rc => .ok (decide (rc = 0))
  | .timeoutExpired => .ok false
  | .fileNotFound => .ok false
  | .otherExn n m => .exn n m

/-! ## Processor (command_processor.py) -/

/-- Values stored in the explanation and metadata dictionaries. -/
inductive PyVal where
  | vstr (s : String)
  | vbool (b : Bool)
  | vint (n : Int)
  | vverdict (v : ValidationResult)
deriving DecidableEq, Repr

/-- An insertion-ordered string-keyed dictionary. -/
abbrev Dict := List (String × PyVal)

/-- Dictionary lookup (first binding wins; dictSet keeps keys unique). -/
def dictGet : Dict → String → Option PyVal
  | [], _ => none
  | (k, v) :: r, key => if k = key then some v else dictGet r key

/-- Dictionary assignment d[key] = v: overwrite in place or append. -/
def dictSet : Dict → String → PyVal → Dict
  | [], key, v => [(key, v)]
  | (k, w) :: r, key, v =>
    if k = key then (k, v) :: r else (k, w) :: dictSet r key v

/-- What happens when _get_explanation runs: the collaborator response
    parses as JSON, fails to parse, or the template lookup, prompt
    formatting or LLM call raises before a response is parsed. -/
inductive ExplainOutcome where
  | parsed (d : Dict) (raw : String)
  | parseError (raw : String) (msg : String)
  | exnBefore (msg : String)
deriving DecidableEq, Repr

/-- CommandProcessor._get_explanation.  Every exception is absorbed
    inside this function, so it always returns a dictionary. -/
def get_explanation (o : ExplainOutcome) : Dict :=
  match o with
  | .parsed d raw => dictSet d "raw_llm_response" (.vstr raw)
  | .parseError raw msg =>
    [("summary", .vstr "Unable to parse LLM response"),
     ("raw_response", .vstr raw),
     ("parse_error", .vstr msg)]
  | .exnBefore msg =>
    [("summary", .vstr ("Error getting explanation: " ++ msg)),
     ("error", .vbool true)]

/-- The error_messages lookup of _create_error_explanation, with the
    dict .get default for the success status. -/
def errorMessageFor (t : Int) (er : CommandResult) (base : String) : String :=
  match er.status with
  | .not_found => "Command \x27" ++ base ++ "\x27 not found on this system"
  | .permission_denied =>
    "Permission denied when executing \x27" ++ er.command ++ "\x27"
  | .timeout => "Command timed out after " ++ toString t ++ " seconds"
  | .error => "Command failed with return code " ++ toString er.return_code
  | .success => "Command execution failed"

/-- CommandProcessor._create_error_explanation.  alt and help are the
    platform-dependent replies of CommandHelper.suggest_alternative and
    format_command_help; base_cmd is command.split()[0], whose IndexError
    on an empty split is the exn branch. -/
def create_error_explanationE (t : Int) (er : CommandResult)
    (alt : Option String) (help : String) : PyResult Dict :=
  match pySplitWs er.command with
  | [] => .exn "IndexError" "list index out of range"
  | w :: _ =>
    let base : Dict :=
      [("summary", .vstr (errorMessageFor t er w)),
       ("error", .vbool true),
       ("error_type", .vstr (statusValue er.status)),
       ("return_code", .vint er.return_code),
       ("error_output", .vstr er.error)]
    .ok (match alt with
      | some a => base ++ [("suggestion", .vstr a), ("help_text", .vstr help)]
      | none => base)

/-- Result of command processing (dataclass ProcessedCommand).  The
    timestamp is the opaque datetime.now() value, modelled as a natural
    clock reading. -/
structure ProcessedCommand where
  command : String
  original_output : String
  explanation : Dict
  execution_time : ℚ
  status : CommandStatus
  timestamp : Nat
  metadata : Dict
deriving DecidableEq, Repr

/-- The ambient behavior of one process_command call: the OS spawn
    outcome, the explanation-stage outcome, the CommandHelper replies,
    the measured elapsed seconds, and the clock value of
    datetime.now(). -/
structure ProcOracle where
  exec : SpawnOutcome
  explain : ExplainOutcome
  alternative : Option String
  helpText : String
  elapsed : ℚ
  now : Nat
deriving DecidableEq, Repr

/-- CommandProcessor._create_error_result. -/
def create_error_result (command error : String) (now : Nat) : ProcessedCommand :=
  ⟨command, "",
   [("summary", .vstr ("Processing error: " ++ error)), ("error", .vbool true)],
   0, .error, now, [("error", .vstr error)]⟩

/-- Return of the instrumented processor: the result handed to the
    caller plus whether the Executor was invoked (an OS spawn was
    attempted). -/
structure ProcReturn where
  result : ProcessedCommand
  executor_spawned : Bool
deriving DecidableEq, Repr

/-- The explanation branch of process_command: ask the collaborator on
    success, synthesize a local error explanation otherwise. -/
def explanation_stage (timeout : Int) (er : CommandResult) (o : ProcOracle) :
    PyResult Dict :=
  if er.status = .success then .ok (get_explanation o.explain)
  else create_error_explanationE timeout er o.alternative o.helpText

/-- CommandProcessor.process_command.  The outer try/except folds any
    exception raised by the validator, the executor or the local error
    explanation into _create_error_result with str(e); get_explanation
    cannot raise. -/
def process_command (timeout : Int) (command : String) (o : ProcOracle) :
    ProcReturn :=
  match validate_commandE command with
  | .exn _ m => ⟨create_error_result command m o.now, false⟩
  | .ok v =>
    if v.valid = false then
      ⟨create_error_result command v.error o.now, false⟩
    else
      match executeE timeout command o.exec with
      | .exn _ m => ⟨create_error_result command m o.now, true⟩
      | .ok er =>
        match explanation_stage timeout er o with
        | .exn _ m => ⟨create_error_result command m o.now, true⟩
        | .ok expl =>
          ⟨⟨command, er.output, expl, o.elapsed, er.status, o.now,
            [("return_code", .vint er.return_code),
             ("error_output", .vstr er.error),
             ("validation", .vverdict v)]⟩, true⟩

/-- Whether the summary entry of the explanation of a result contains
    the given text (Python: text in result.explanation["summary"]). -/
def summaryContains (r : ProcessedCommand) (sub : String) : Bool :=
  match dictGet r.explanation "summary" with
  | some (.vstr s) => pyInStr s sub
  | _ => false

/-- A concrete ambient behavior: a fast process exiting 0 and a
    collaborator response that parses. -/
def oracleA : ProcOracle :=
  ⟨.ok 0 1 0 "64 bytes from 8.8.8.8" "", .parsed [("summary", .vstr "ok")] "x",
   none, "", 1, 42⟩

/-- A concrete ambient behavior whose explanation stage raises. -/
def oracleExn : ProcOracle :=
  ⟨.ok 0 1 0 "64 bytes from 8.8.8.8" "", .exnBefore "LLM unavailable",
   none, "", 1, 42⟩

/-! ## Helper lemmas -/

/-- A split that already holds a word in progress produces a word. -/
theorem splitWsAux_ne_nil (l : List Char) (acc : List Char) (h : acc ≠ []) :
    splitWsAux l acc ≠ [] := by
  induction l generalizing acc with
  | nil => simp [splitWsAux, h]
  | cons c r ih =>
    by_cases hc : pyIsSpace c = true
    · simp [splitWsAux, hc, h]
    · simp only [splitWsAux, hc, if_false, Bool.false_eq_true]
      exact ih (c :: acc) (by simp)

/-- An empty split means every character is whitespace. -/
theorem splitWsAux_eq_nil_all_space (l : List Char) (h : splitWsAux l [] = []) :
    ∀ c ∈ l, pyIsSpace c = true := by
  induction l with
  | nil => simp
  | cons c r ih =>
    by_cases hc : pyIsSpace c = true
    · intro d hd
      rcases List.mem_cons.mp hd with rfl | hd2
      · exact hc
      · have h2 : splitWsAux r [] = [] := by simpa [splitWsAux, hc] using h
        exact ih h2 d hd2
    · exfalso
      have hne := splitWsAux_ne_nil r [c] (by simp)
      have h2 : splitWsAux r [c] = [] := by simpa [splitWsAux, hc] using h
      exact hne h2

/-- If the trimmed string is nonempty, str.split yields at least one
    word, so command.split()[0] is in bounds. -/
theorem pySplitWs_ne_nil_of_strip (s : String) (h : pyStrip s ≠ "") :
    pySplitWs s ≠ [] := by
  intro hnil
  apply h
  have hall : ∀ c ∈ s.data, pyIsSpace c = true :=
    splitWsAux_eq_nil_all_space s.data hnil
  have hdrop : s.data.dropWhile pyIsSpace = [] := by
    rw [List.dropWhile_eq_nil_iff]
    exact hall
  simp [pyStrip, stripL, hdrop]

/-- The emptiness check passing guarantees a nonempty split. -/
theorem pySplitWs_ne_nil_of_not_empty (s : String) (h : emptyFail s = false) :
    pySplitWs s ≠ [] := by
  apply pySplitWs_ne_nil_of_strip
  intro hs
  simp [emptyFail, hs] at h

/-- validate_commandE never reaches its exception branch. -/
theorem validate_commandE_ok (s : String) : ∃ r, validate_commandE s = .ok r := by
  unfold validate_commandE
  by_cases h1 : emptyFail s = true
  · simp [h1]
  · have h1f : emptyFail s = false := by simpa using h1
    rcases hw : pySplitWs s with _ | ⟨w, t⟩
    · exact absurd hw (pySplitWs_ne_nil_of_not_empty s h1f)
    · simp only [h1f, hw, Bool.false_eq_true, if_false]
      repeat' split
      all_goals exact ⟨_, rfl⟩

/-- The two denylist rejection messages are always distinct. -/
theorem dangerousMsg_ne_specialMsg (a b : String) :
    dangerousMsg a ≠ specialMsg b := by
  intro h
  have h2 := congrArg String.data h
  have e1 : (dangerousMsg a).data =
      'D' :: ("angerous command \x27" ++ a ++ "\x27 is not allowed").data := rfl
  have e2 : (specialMsg b).data =
      'S' :: ("pecial command \x27" ++ b ++ "\x27 requires special handling").data := rfl
  rw [e1, e2] at h2
  injection h2 with hD _
  exact absurd hD (by decide)

/-- Exit classification yields Success exactly on exit code zero. -/
theorem determine_status_eq_success_iff (c : Int) (st : String) :
    determine_status c st = .success ↔ c = 0 := by
  by_cases h0 : c = 0
  · simp [determine_status, h0]
  · by_cases h127 : c = 127 <;> by_cases h126 : c = 126 <;>
      simp [determine_status, h0, h127, h126]

/-! ## Claim theorems -/

/-- C10: validate_command is total on every input string: the
    leading-token extraction via split()[0] is reached only when the
    trimmed input is nonempty, which guarantees a nonempty token list,
    so the indexing never fails and the call always returns an ordinary
    ValidationResult rather than raising. -/
theorem validate_command_total (s : String) :
    validate_commandE s = .ok (validate_command s) := by
  obtain ⟨r, hr⟩ := validate_commandE_ok s
  simp [validate_command, hr]

/-- Witness for C10 at a concrete input. -/
theorem validate_command_total_witness :
    validate_commandE "ping host" = .ok (validate_command "ping host") :=
  validate_command_total "ping host"

/-- C4: for every process that completes normally, the exit code is
    classified as 0 to Success, 127 to NotFound, 126 to PermissionDenied,
    and every other value to GenericError, independently of stderr. -/
theorem determine_status_classification :
    (∀ st, determine_status 0 st = .success)
  ∧ (∀ st, determine_status 127 st = .not_found)
  ∧ (∀ st, determine_status 126 st = .permission_denied)
  ∧ (∀ (c : Int) (st : String), c ≠ 0 → c ≠ 127 → c ≠ 126 →
      determine_status c st = .error) := by
  refine ⟨fun st => rfl, fun st => rfl, fun st => rfl, ?_⟩
  intro c st h0 h127 h126
  simp [determine_status, h0, h127, h126]

/-- Witness for C4: an ordinary nonzero exit code classifies as
    GenericError. -/
theorem determine_status_classification_witness :
    determine_status 5 "" = .error :=
  determine_status_classification.2.2.2 5 "" (by decide) (by decide) (by decide)

/-- C5: every CommandResult returned by execute, on every branch of the
    outcome oracle, satisfies status = Success iff return_code = 0. -/
theorem execute_success_iff_exit_zero (t : Int) (cmd : String)
    (os : SpawnOutcome) (r : CommandResult)
    (h : executeE t cmd os = .ok r) :
    r.status = .success ↔ r.return_code = 0 := by
  cases os with
  | ok spawnS runS code out err =>
    by_cases hlt : (t : ℚ) < spawnS
    · simp [executeE, hlt] at h
      subst h
      simp
    · simp [executeE, hlt] at h
      subst h
      simpa using determine_status_eq_success_iff code err
  | fileNotFound =>
    unfold executeE at h
    rcases hsp : pySplitWs cmd with _ | ⟨w, ws⟩ <;> rw [hsp] at h
    · simp at h
    · simp at h
      subst h
      simp
  | permissionError =>
    simp [executeE] at h
    subst h
    simp
  | otherExn m =>
    simp [executeE] at h
    subst h
    simp

/-- Witness for C5 on a normally completed process with exit code 0. -/
theorem execute_success_iff_exit_zero_witness :
    ((⟨"ping x", "o", "e", .success, 0, 1⟩ : CommandResult).status = .success ↔
      (⟨"ping x", "o", "e", .success, 0, 1⟩ : CommandResult).return_code = 0) :=
  execute_success_iff_exit_zero 30 "ping x" (.ok 0 1 0 "o" "e") _
    (by norm_num [executeE, determine_status])

/-- C1 (code bug): the source applies asyncio.wait_for to
    _create_subprocess alone, so a process that spawns instantly and
    runs for 20 seconds against a 10 second bound is not raced against
    the timer at all: execute blocks for the full 20 seconds and
    returns the exit-code classification (Success) with
    execution_time 20, not the claimed Timeout outcome at the bound. -/
theorem timeout_not_enforced_on_long_run :
    executeE 10 "sleep 20" (.ok 0 20 0 "" "") =
      .ok ⟨"sleep 20", "", "", .success, 0, 20⟩
  ∧ (10 : ℚ) < 20
  ∧ CommandStatus.success ≠ CommandStatus.timeout := by
  refine ⟨?_, by norm_num, by decide⟩
  norm_num [executeE, determine_status]

/-- C9 counterexample: an error of a type other than TimeoutExpired or
    FileNotFoundError during the probe is not caught, so
    is_command_available raises instead of returning false. -/
theorem is_available_raises_on_uncaught_error :
    is_command_available (.otherExn "ValueError" "embedded null byte") =
      .exn "ValueError" "embedded null byte" := rfl

/-- C9 amended: is_command_available fails closed exactly on the two
    caught probe errors, returns whether the probe exited zero on
    completion, and propagates any other probe error. -/
theorem is_available_fail_closed_on_caught_errors :
    is_command_available .timeoutExpired = .ok false
  ∧ is_command_available .fileNotFound = .ok false
  ∧ (∀ rc : Int, is_command_available (.completed rc) = .ok (decide (rc = 0)))
  ∧ (∀ n m, is_command_available (.otherExn n m) = .exn n m) :=
  ⟨rfl, rfl, fun _ => rfl, fun _ _ => rfl⟩

/-- C3 counterexample: processing the input sudo shutdown yields a
    summary that does not contain the text Special command. -/
theorem sudo_shutdown_not_special :
    summaryContains (process_command 30 "sudo shutdown" oracleA).result
      "Special command" = false := by decide

/-- C3 amended: the input sudo shutdown is rejected before execution
    and the resulting summary contains Dangerous command, because the
    leading token sudo is in the dangerous set, which is checked before
    the special set. -/
theorem sudo_shutdown_rejected_as_dangerous :
    (process_command 30 "sudo shutdown" oracleA).executor_spawned = false
  ∧ summaryContains (process_command 30 "sudo shutdown" oracleA).result
      "Dangerous command" = true := by decide

/-- C6: the validator applies its checks in the fixed order emptiness,
    length bound, dangerous denylist by leading token, special denylist
    by leading token, character allowlist, shell tokenizability, domain
    allowlist; the reported reason is that of the first failing check,
    and the dangerous and special sets report distinct reasons. -/
theorem validate_first_failure_wins (s : String) :
    (emptyFail s = true →
      validate_command s = ⟨false, "Empty command", none, ""⟩)
  ∧ (emptyFail s = false → lengthFail s = true →
      validate_command s = ⟨false, tooLongMsg, none, ""⟩)
  ∧ (∀ w t, emptyFail s = false → lengthFail s = false →
      pySplitWs s = w :: t →
      dangerous_commands.contains (pyLower w) = true →
      validate_command s = ⟨false, dangerousMsg (pyLower w), none, ""⟩)
  ∧ (∀ w t, emptyFail s = false → lengthFail s = false →
      pySplitWs s = w :: t →
      dangerous_commands.contains (pyLower w) = false →
      special_commands.contains (pyLower w) = true →
      validate_command s = ⟨false, specialMsg (pyLower w), none, ""⟩)
  ∧ (∀ w t, emptyFail s = false → lengthFail s = false →
      pySplitWs s = w :: t →
      dangerous_commands.contains (pyLower w) = false →
      special_commands.contains (pyLower w) = false →
      pyAllowedMatch s = false →
      validate_command s = ⟨false, "Command contains invalid characters", none, ""⟩)
  ∧ (∀ w t e, emptyFail s = false → lengthFail s = false →
      pySplitWs s = w :: t →
      dangerous_commands.contains (pyLower w) = false →
      special_commands.contains (pyLower w) = false →
      pyAllowedMatch s = true →
      shlexSplit s = .error e →
      validate_command s = ⟨false, "Invalid command syntax: " ++ e, none, ""⟩)
  ∧ (∀ w t, emptyFail s = false → lengthFail s = false →
      pySplitWs s = w :: t →
      dangerous_commands.contains (pyLower w) = false →
      special_commands.contains (pyLower w) = false →
      pyAllowedMatch s = true →
      shlexSplit s = .ok [] →
      validate_command s = ⟨false, "Invalid command syntax", none, ""⟩)
  ∧ (∀ w t p ps, emptyFail s = false → lengthFail s = false →
      pySplitWs s = w :: t →
      dangerous_commands.contains (pyLower w) = false →
      special_commands.contains (pyLower w) = false →
      pyAllowedMatch s = true →
      shlexSplit s = .ok (p :: ps) →
      is_networking_command s = false →
      validate_command s =
        ⟨false, "Command does not appear to be a networking command", none, ""⟩)
  ∧ (∀ w t p ps, emptyFail s = false → lengthFail s = false →
      pySplitWs s = w :: t →
      dangerous_commands.contains (pyLower w) = false →
      special_commands.contains (pyLower w) = false →
      pyAllowedMatch s = true →
      shlexSplit s = .ok (p :: ps) →
      is_networking_command s = true →
      validate_command s = ⟨true, "", some (get_warnings s), pyStrip s⟩)
  ∧ (∀ a b, dangerousMsg a ≠ specialMsg b) := by
  refine ⟨?_, ?_, ?_, ?_, ?_, ?_, ?_, ?_, ?_, dangerousMsg_ne_specialMsg⟩
  · intro h1
    simp [validate_command, validate_commandE, h1]
  · intro h1 h2
    simp [validate_command, validate_commandE, h1, h2]
  · intro w t h1 h2 hw hd
    have hd2 : pyLower w ∈ dangerous_commands := by simpa using hd
    simp [validate_command, validate_commandE, h1, h2, hw, hd2]
  · intro w t h1 h2 hw hd hs
    have hd2 : pyLower w ∉ dangerous_commands := by simpa using hd
    have hs2 : pyLower w ∈ special_commands := by simpa using hs
    simp [validate_command, validate_commandE, h1, h2, hw, hd2, hs2]
  · intro w t h1 h2 hw hd hs ha
    have hd2 : pyLower w ∉ dangerous_commands := by simpa using hd
    have hs2 : pyLower w ∉ special_commands := by simpa using hs
    simp [validate_command, validate_commandE, h1, h2, hw, hd2, hs2, ha]
  · intro w t e h1 h2 hw hd hs ha hx
    have hd2 : pyLower w ∉ dangerous_commands := by simpa using hd
    have hs2 : pyLower w ∉ special_commands := by simpa using hs
    simp [validate_command, validate_commandE, h1, h2, hw, hd2, hs2, ha, hx]
  · intro w t h1 h2 hw hd hs ha hx
    have hd2 : pyLower w ∉ dangerous_commands := by simpa using hd
    have hs2 : pyLower w ∉ special_commands := by simpa using hs
    simp [validate_command, validate_commandE, h1, h2, hw, hd2, hs2, ha, hx]
  · intro w t p ps h1 h2 hw hd hs ha hx hn
    have hd2 : pyLower w ∉ dangerous_commands := by simpa using hd
    have hs2 : pyLower w ∉ special_commands := by simpa using hs
    simp [validate_command, validate_commandE, h1, h2, hw, hd2, hs2, ha, hx, hn]
  · intro w t p ps h1 h2 hw hd hs ha hx hn
    have hd2 : pyLower w ∉ dangerous_commands := by simpa using hd
    have hs2 : pyLower w ∉ special_commands := by simpa using hs
    simp [validate_command, validate_commandE, h1, h2, hw, hd2, hs2, ha, hx, hn]

/-- Witness for C6: a special-only leading token is rejected with the
    special-handling reason after the earlier checks pass. -/
theorem validate_first_failure_wins_witness :
    validate_command "ssh host" =
      ⟨false, specialMsg (pyLower "ssh"), none, ""⟩ :=
  (validate_first_failure_wins "ssh host").2.2.2.1 "ssh" ["host"]
    (by decide) (by decide) (by decide) (by decide) (by decide)

/-- C2: when validation rejects, the Executor is never invoked and the
    result is the terminal error record: GenericError status, summary
    Processing error prefixed to the validator reason, empty output and
    zero elapsed time. -/
theorem invalid_command_short_circuits (t : Int) (cmd : String)
    (o : ProcOracle) (v : ValidationResult)
    (hv : validate_commandE cmd = .ok v) (hinv : v.valid = false) :
    (process_command t cmd o).executor_spawned = false
  ∧ (process_command t cmd o).result.status = .error
  ∧ (process_command t cmd o).result.explanation =
      [("summary", .vstr ("Processing error: " ++ v.error)),
       ("error", .vbool true)]
  ∧ (process_command t cmd o).result.original_output = ""
  ∧ (process_command t cmd o).result.execution_time = 0 := by
  simp [process_command, hv, hinv, create_error_result]

/-- Witness for C2 at the rejected input rm -rf /. -/
theorem invalid_command_short_circuits_witness :
    (process_command 30 "rm -rf /" oracleA).executor_spawned = false
  ∧ (process_command 30 "rm -rf /" oracleA).result.status = .error
  ∧ (process_command 30 "rm -rf /" oracleA).result.explanation =
      [("summary", .vstr ("Processing error: " ++ dangerousMsg "rm")),
       ("error", .vbool true)]
  ∧ (process_command 30 "rm -rf /" oracleA).result.original_output = ""
  ∧ (process_command 30 "rm -rf /" oracleA).result.execution_time = 0 :=
  invalid_command_short_circuits 30 "rm -rf /" oracleA
    ⟨false, dangerousMsg "rm", none, ""⟩ (by decide) rfl

/-- C7 counterexample: an internal fault in the explanation stage (the
    collaborator call raises) is caught, but the returned statusCode is
    Success, not an error variant as the claim requires. -/
theorem explanation_fault_keeps_success_status :
    oracleExn.explain = .exnBefore "LLM unavailable"
  ∧ (process_command 30 "ping google.com" oracleExn).result.status = .success
  ∧ CommandStatus.success ≠ CommandStatus.error
  ∧ CommandStatus.success ≠ CommandStatus.not_found
  ∧ CommandStatus.success ≠ CommandStatus.timeout
  ∧ CommandStatus.success ≠ CommandStatus.permission_denied
  ∧ dictGet (process_command 30 "ping google.com" oracleExn).result.explanation
      "error" = some (.vbool true) := by decide

/-- C7 amended: process never raises; faults during validation or
    execution fold into a GenericError result whose explanation carries
    a summary and error=true, while a fault in the explanation stage
    after a successful execution degrades only the explanation
    (summary plus error=true) and keeps the execution status. -/
theorem process_faults_folded (t : Int) (cmd : String) (o : ProcOracle) :
    (∀ n m, validate_commandE cmd = .exn n m →
      process_command t cmd o = ⟨create_error_result cmd m o.now, false⟩)
  ∧ (∀ v, validate_commandE cmd = .ok v → v.valid = false →
      process_command t cmd o = ⟨create_error_result cmd v.error o.now, false⟩)
  ∧ (∀ v n m, validate_commandE cmd = .ok v → v.valid = true →
      executeE t cmd o.exec = .exn n m →
      process_command t cmd o = ⟨create_error_result cmd m o.now, true⟩)
  ∧ (∀ v er m, validate_commandE cmd = .ok v → v.valid = true →
      executeE t cmd o.exec = .ok er → er.status = .success →
      o.explain = .exnBefore m →
      (process_command t cmd o).result.status = er.status
    ∧ (process_command t cmd o).result.explanation =
        [("summary", .vstr ("Error getting explanation: " ++ m)),
         ("error", .vbool true)])
  ∧ (∀ e, (create_error_result cmd e o.now).status = .error
    ∧ dictGet (create_error_result cmd e o.now).explanation "error" =
        some (.vbool true)) := by
  refine ⟨?_, ?_, ?_, ?_, ?_⟩
  · intro n m hv
    simp [process_command, hv]
  · intro v hv hinv
    simp [process_command, hv, hinv]
  · intro v n m hv hval he
    simp [process_command, hv, hval, he]
  · intro v er m hv hval he hsucc hexp
    simp [process_command, hv, hval, he, explanation_stage, hsucc,
      get_explanation, hexp]
  · intro e
    simp [create_error_result, dictGet]

/-- Witness for C7 on a successful execution whose collaborator call
    raises. -/
theorem process_faults_folded_witness :
    (process_command 30 "ping google.com" oracleExn).result.status =
      (⟨"ping google.com", "64 bytes from 8.8.8.8", "", .success, 0, 1⟩ :
        CommandResult).status
  ∧ (process_command 30 "ping google.com" oracleExn).result.explanation =
      [("summary", .vstr ("Error getting explanation: " ++ "LLM unavailable")),
       ("error", .vbool true)] :=
  (process_faults_folded 30 "ping google.com" oracleExn).2.2.2.1
    ⟨true, "", some [], "ping google.com"⟩
    ⟨"ping google.com", "64 bytes from 8.8.8.8", "", .success, 0, 1⟩
    "LLM unavailable" (by decide) rfl
    (by norm_num [executeE, determine_status, oracleExn]) rfl rfl

/-- C8 counterexample: on the validation-rejection path the metadata
    mapping holds only the error reason: it contains neither the exit
    code nor the stderr text nor the ValidationVerdict the claim
    requires on every path. -/
theorem rejected_metadata_lacks_execution_fields :
    (process_command 30 "ls -la" oracleA).result.metadata =
      [("error", .vstr "Command does not appear to be a networking command")]
  ∧ dictGet (process_command 30 "ls -la" oracleA).result.metadata
      "return_code" = none
  ∧ dictGet (process_command 30 "ls -la" oracleA).result.metadata
      "error_output" = none
  ∧ dictGet (process_command 30 "ls -la" oracleA).result.metadata
      "validation" = none := by decide

/-- C8 amended: every result carries the completion timestamp; on paths
    that executed the command the metadata holds the exit code, the
    stderr text and the original verdict, while on rejection and
    internal-fault paths it holds only the error reason. -/
theorem result_timestamp_and_metadata (t : Int) (cmd : String) (o : ProcOracle) :
    ((process_command t cmd o).result.timestamp = o.now)
  ∧ (∀ v er expl, validate_commandE cmd = .ok v → v.valid = true →
      executeE t cmd o.exec = .ok er →
      explanation_stage t er o = .ok expl →
      (process_command t cmd o).result.metadata =
        [("return_code", .vint er.return_code),
         ("error_output", .vstr er.error),
         ("validation", .vverdict v)])
  ∧ (∀ v, validate_commandE cmd = .ok v → v.valid = false →
      (process_command t cmd o).result.metadata = [("error", .vstr v.error)]) := by
  refine ⟨?_, ?_, ?_⟩
  · unfold process_command
    rcases hv : validate_commandE cmd with ⟨v⟩ | ⟨n, m⟩
    · by_cases hval : v.valid = false
      · simp [hval, create_error_result]
      · rcases he : executeE t cmd o.exec with ⟨er⟩ | ⟨n, m⟩
        · rcases hex : explanation_stage t er o with ⟨ex⟩ | ⟨n2, m2⟩ <;>
            simp [hval, he, hex, create_error_result]
        · simp [hval, he, create_error_result]
    · simp [create_error_result]
  · intro v er expl hv hval he hex
    simp [process_command, hv, hval, he, hex]
  · intro v hv hinv
    simp [process_command, hv, hinv, create_error_result]

/-- Witness for C8 on an executed success path. -/
theorem result_timestamp_and_metadata_witness :
    (process_command 30 "dig example.com" oracleA).result.metadata =
      [("return_code", .vint 0),
       ("error_output", .vstr ""),
       ("validation", .vverdict ⟨true, "", some [], "dig example.com"⟩)] :=
  (result_timestamp_and_metadata 30 "dig example.com" oracleA).2.1
    ⟨true, "", some [], "dig example.com"⟩
    ⟨"dig example.com", "64 bytes from 8.8.8.8", "", .success, 0, 1⟩
    [("summary", .vstr "ok"), ("raw_llm_response", .vstr "x")]
    (by decide) rfl
    (by norm_num [executeE, determine_status, oracleA]) (by decide)

end TerminalTool
